import Mathlib

/-!
Verification of the authentication and ownership-enforcement core of the
`todos_api` Go service (Gin + pgx + golang-jwt), shallowly embedded in Lean.

The PostgreSQL `todos` table is modelled as a `List ToDo` and the `users`
table as a `List User`; single-statement SQL queries become pure functions
on those lists, with `QueryRow.Scan` of an empty result set mapped to
`RepoError.noRows` (pgx.ErrNoRows) and the `fmt.Errorf` value produced by
`DeleteTodo` mapped to `RepoError.message`. Timestamps are abstract `Nat`
instants; `CURRENT_TIMESTAMP` becomes an explicit `now` parameter. Each
HTTP handler is a function producing the list of events it performs —
storage operations and response writes, in program order — so halting
behaviour (`return` or its absence after an error write) is observable in
the event list. Infrastructure failures of the connection pool itself
(timeouts, broken connections) are outside the pure model; the handler
branches that react to them are kept and reachable through the error types.
-/

namespace TodosApi

/-- Row of the `todos` table (`models.ToDo` as scanned by the repository:
id, title, completed, created_at, updated_at, user_id). -/
structure ToDo where
  id : Int
  title : String
  completed : Bool
  createdAt : Nat
  updatedAt : Nat
  userID : String
deriving DecidableEq, Repr

/-- Errors surfaced by the repository layer: `noRows` is `pgx.ErrNoRows`
(scan of an empty result set); `message` is an `fmt.Errorf` string error. -/
inductive RepoError where
  | noRows
  | message (s : String)
deriving DecidableEq, Repr

/-- The `Error()` string of a repository error (`pgx.ErrNoRows.Error()` is
"no rows in result set"). -/
def RepoError.errString : RepoError → String
  | .noRows => "no rows in result set"
  | .message s => s

/-- The WHERE clause `id = $1 AND user_id = $2` shared by GetTodoByID,
UpdateTodo and DeleteTodo. -/
def rowMatches (id : Int) (userID : String) (t : ToDo) : Bool :=
  t.id == id && t.userID == userID

/-- `CreateTodo` (todo_repository.go): `INSERT INTO todos (title, completed,
user_id) VALUES ($1, $2, $3) RETURNING ...`; the store assigns the new id
and both timestamps. -/
def CreateTodo (db : List ToDo) (title : String) (completed : Bool)
    (userID : String) (newId : Int) (now : Nat) : ToDo × List ToDo :=
  let row : ToDo :=
    { id := newId, title := title, completed := completed,
      createdAt := now, updatedAt := now, userID := userID }
  (row, db ++ [row])

/-- `GetTodoByID` (todo_repository.go): `SELECT ... FROM todos WHERE id = $1
AND user_id = $2` through `QueryRow.Scan`; an empty result set yields
`pgx.ErrNoRows`. -/
def GetTodoByID (db : List ToDo) (id : Int) (userID : String) :
    Except RepoError ToDo :=
  match db.find? (rowMatches id userID) with
  | some t => .ok t
  | none => .error .noRows

/-- `GetAllTodos` (todo_repository.go): `SELECT ... FROM todos WHERE
user_id = $1 ORDER BY created_at DESC`. -/
def GetAllTodos (db : List ToDo) (userID : String) : List ToDo :=
  (db.filter (fun t => t.userID == userID)).mergeSort
    (fun a b => Nat.ble b.createdAt a.createdAt)

/-- The row transformation of the SQL `UPDATE todos SET title = $1,
completed = $2, updated_at = CURRENT_TIMESTAMP WHERE id = $3 AND
user_id = $4`, applied to one row. -/
def applyUpdate (id : Int) (title : String) (completed : Bool) (userID : String)
    (now : Nat) (t : ToDo) : ToDo :=
  if rowMatches id userID t then
    { t with title := title, completed := completed, updatedAt := now }
  else t

/-- `UpdateTodo` (todo_repository.go): the UPDATE ... RETURNING statement
through `QueryRow.Scan`; zero affected rows yield `pgx.ErrNoRows`. Returns
the scanned row together with the table after the update. -/
def UpdateTodo (db : List ToDo) (id : Int) (title : String) (completed : Bool)
    (userID : String) (now : Nat) : Except RepoError (ToDo × List ToDo) :=
  match db.find? (rowMatches id userID) with
  | none => .error .noRows
  | some t =>
    .ok ({ t with title := title, completed := completed, updatedAt := now },
         db.map (applyUpdate id title completed userID now))

/-- The error message built by `DeleteTodo` via
`fmt.Errorf("ToDo with id: %v not found", id)`; the `%v` verb renders a Go
int in decimal, which coincides with `toString` on `Int`. -/
def notFoundMsg (id : Int) : String :=
  "ToDo with id: " ++ toString id ++ " not found"

/-- `DeleteTodo` (todo_repository.go): `DELETE FROM todos WHERE id = $1 AND
user_id = $2` via `Exec`; `RowsAffected() == 0` yields the string error
`notFoundMsg`. Returns the table after the delete. -/
def DeleteTodo (db : List ToDo) (id : Int) (userID : String) :
    Except RepoError (List ToDo) :=
  let affected := (db.filter (rowMatches id userID)).length
  if affected == 0 then .error (.message (notFoundMsg id))
  else .ok (db.filter (fun t => !(rowMatches id userID t)))

/-- The primary-key invariant of the `todos` table: row ids are unique
(assigned by the store, `id SERIAL PRIMARY KEY`). -/
def uniqueIds (db : List ToDo) : Prop :=
  (db.map ToDo.id).Nodup

/-- `users` table row (`models.User` as scanned by the repository: id,
email, password hash, created_at, updated_at). The middleware injects the
owner identifier as a string and the todo repository binds it as a string,
so the identifier is modelled as `String` throughout. -/
structure User where
  id : String
  email : String
  password : String
  createdAt : Nat
  updatedAt : Nat
deriving DecidableEq, Repr

/-- A `*pgconn.PgError`: `code` is the SQLSTATE (23505 for unique-constraint
violations), `message` the server message used by `err.Error()`. -/
structure PgError where
  code : String
  message : String
deriving DecidableEq, Repr

/-- `CreateUser` (user_repository.go): `INSERT INTO users (email, password)
VALUES ($1, $2) RETURNING ...`; the UNIQUE constraint on email raises
SQLSTATE 23505. The store assigns the id and timestamps. -/
def CreateUser (users : List User) (newId : String) (now : Nat) (u : User) :
    Except PgError (User × List User) :=
  if users.any (fun v => v.email == u.email) then
    .error { code := "23505",
             message := "duplicate key value violates unique constraint" }
  else
    let created : User := { u with id := newId, createdAt := now, updatedAt := now }
    .ok (created, users ++ [created])

/-- `GetUserByEmail` (user_repository.go): `SELECT ... FROM users WHERE
email = $1`; an empty result set yields `pgx.ErrNoRows`. -/
def GetUserByEmail (users : List User) (email : String) :
    Except RepoError User :=
  match users.find? (fun u => u.email == email) with
  | some u => .ok u
  | none => .error .noRows

/-! ## JSON claim values and tokens

`jwt.MapClaims` is a map from claim name to arbitrary JSON value, populated by `encoding/json`:
a JSON number deserializes to `float64` (`ClaimValue.num`, instants kept as
`Int` seconds), a JSON string to `string` (`ClaimValue.str`). A Go
`time.Time` placed in the claims map is marshalled by `encoding/json` as
its RFC3339 string, so it comes back from parsing as a plain string claim. -/

inductive ClaimValue where
  | num (n : Int)
  | str (s : String)
deriving DecidableEq, Repr

/-- Modelled from the Go `time.Time` JSON marshalling collaborator: the
RFC3339 rendering of an instant. The middleware never inspects the content
of a string claim, only its JSON type, so the rendering is kept abstract as
an injective tagging of the instant. -/
def rfc3339Render (t : Int) : String :=
  "RFC3339 " ++ toString t

/-- The claim set carried by a token, after JSON deserialization. Absent
claims are `none`. `jwt.Parse` always deserializes into `jwt.MapClaims`,
so the `token.Claims.(jwt.MapClaims)` assertion in the middleware always
succeeds and needs no separate representation. -/
structure JWTClaims where
  user_id : Option ClaimValue
  email : Option ClaimValue
  exp : Option ClaimValue
deriving DecidableEq, Repr

/-- A compact JWT as decoded by the library: the `alg` header field, whether
the signature validates against the server secret, and the claims. -/
structure JWTToken where
  alg : String
  sigValid : Bool
  claims : JWTClaims
deriving DecidableEq, Repr

/-- `jwt.MapClaims.Valid()` of golang-jwt/jwt v3 at instant `now`:
`VerifyExpiresAt(now, false)` type-switches on the `exp` claim and checks
`now <= exp` only when it is a JSON number (with `exp == 0` treated as
absent); any other type — including the string a marshalled `time.Time`
becomes — passes because the claim is not required. `iat` and `nbf` are
never set by this service and pass for the same reason. -/
def MapClaimsValid (now : Int) (c : JWTClaims) : Bool :=
  match c.exp with
  | some (.num e) => if e == 0 then true else decide (now ≤ e)
  | _ => true

/-- `jwt.Parse` with the keyfunc of AuthMiddleware: an undecodable compact
string is an error; the keyfunc rejects any `alg` other than HS256; then
claims validation (`MapClaimsValid`) and signature verification run. The
middleware treats `err != nil || !token.Valid` as one failure. -/
def jwtParse (now : Int) (decoded : Option JWTToken) : Except Unit JWTToken :=
  match decoded with
  | none => .error ()
  | some tok =>
    if tok.alg != "HS256" then .error ()
    else if !(MapClaimsValid now tok.claims) then .error ()
    else if !tok.sigValid then .error ()
    else .ok tok

/-- Outcome of the auth gate on one request: `rejected status msg` writes
the JSON error and calls `c.Abort()`; `proceed userID` is
`c.Set("user_id", userID); c.Next()`. -/
inductive AuthResult where
  | rejected (status : Nat) (msg : String)
  | proceed (userID : String)
deriving DecidableEq, Repr

/-- `strings.TrimPrefix(authHeader, "Bearer ")`: when the seven characters
"Bearer " lead the header the rest is returned, otherwise the header is
returned unchanged. -/
def tokenStringOf (h : String) : String :=
  if h.toList.take 7 = "Bearer ".toList then h.drop 7 else h

/-- `AuthMiddleware` (middleware package): reads the Authorization header
(`c.GetHeader` returns the empty string when absent), extracts the bearer
token, parses and verifies it (`decode` abstracts base64/JSON decoding of
the compact string), requires a string `user_id` claim, re-checks a
`float64` `exp` claim if one is present, and otherwise injects the subject.
Note: `claims["user_id"].(string)` accepts any JSON string and
`claims["exp"].(float64)` succeeds only on a JSON number. -/
def AuthMiddleware (now : Int) (decode : String → Option JWTToken)
    (authHeader : String) : AuthResult :=
  if authHeader == "" then .rejected 401 "Authorization header required"
  else if tokenStringOf authHeader == ""
      || tokenStringOf authHeader == authHeader then
    .rejected 401 "Invalid authorization header format"
  else
    match jwtParse now (decode (tokenStringOf authHeader)) with
      | .error _ => .rejected 401 "Invalid or expired token"
      | .ok token =>
        match token.claims.user_id with
        | some (.str userID) =>
          match token.claims.exp with
          | some (.num exp) =>
            if now > exp then .rejected 401 "Token has expired"
            else .proceed userID
          | _ => .proceed userID
        | _ => .rejected 401 "Invalid token Claims"

/-- The claims `LoginHandler` builds: `user_id` and `email` as strings and
`"exp": time.Now().Add(24 * time.Hour)` — a `time.Time` value, which
`SignedString` JSON-marshals as an RFC3339 *string*; parsing the issued
token therefore yields a string `exp` claim denoting instant
`now + 86400` seconds. -/
def loginClaims (userId email : String) (now : Int) : JWTClaims :=
  { user_id := some (.str userId),
    email := some (.str email),
    exp := some (.str (rfc3339Render (now + 86400))) }

/-- The decoded form of the compact token string `LoginHandler` signs for a
user at instant `issuedAt`: HS256, a signature valid for the server secret,
and `loginClaims`. -/
def issuedTokenDecoded (userId email : String) (issuedAt : Int) : JWTToken :=
  { alg := "HS256", sigValid := true, claims := loginClaims userId email issuedAt }

/-! ## Responses, events and handlers -/

/-- JSON keys of a serialized `models.ToDo` (the six scanned columns; the
task row carries no password data at all). -/
def todoJSONKeys : List String :=
  ["id", "title", "completed", "created_at", "updated_at", "user_id"]

/-- A JSON response body: `gin.H` error / message objects, a serialized
user, a `LoginResponse` token, a task or a task list. -/
inductive Body where
  | errB (msg : String)
  | msgB (msg : String)
  | userB (fields : List (String × String))
  | tokenB (token : String)
  | todoB (t : ToDo)
  | todosB (ts : List ToDo)
deriving DecidableEq, Repr

/-- The top-level JSON keys a body serializes. -/
def Body.jsonKeys : Body → List String
  | .errB _ => ["error"]
  | .msgB _ => ["message"]
  | .userB fields => fields.map Prod.fst
  | .tokenB _ => ["token"]
  | .todoB _ => todoJSONKeys
  | .todosB _ => todoJSONKeys

structure Response where
  status : Nat
  body : Body
deriving DecidableEq, Repr

/-- A storage operation issued against the connection pool. -/
inductive StoreOp where
  | selectTodo (id : Int) (userID : String)
  | selectAllTodos (userID : String)
  | insertTodo (title : String) (completed : Bool) (userID : String)
  | updateTodoRow (id : Int) (title : String) (completed : Bool) (userID : String)
  | deleteTodoRow (id : Int) (userID : String)
  | selectUserByEmail (email : String)
  | insertUser (email : String) (passwordHash : String)
deriving DecidableEq, Repr

/-- One observable step of a handler, in program order. -/
inductive Event where
  | store (op : StoreOp)
  | resp (r : Response)
deriving DecidableEq, Repr

/-- The response bodies written during a handler run, in order. -/
def respBodies (events : List Event) : List Body :=
  events.filterMap (fun e => match e with | .resp r => some r.body | .store _ => none)

/-- The responses written during a handler run, in order. -/
def responsesOf (events : List Event) : List Response :=
  events.filterMap (fun e => match e with | .resp r => some r | .store _ => none)

/-- The storage operations issued during a handler run, in order. -/
def storeOps (events : List Event) : List StoreOp :=
  events.filterMap (fun e => match e with | .store op => some op | .resp _ => none)

/-- `strconv.Atoi`: an optional single sign followed by at least one digit,
nothing else (leading zeros allowed, so "007" parses to 7 while its string
form stays "007"). -/
def atoi (s : String) : Except Unit Int :=
  match s.toList with
  | [] => .error ()
  | c :: rest =>
    let signed : Int × List Char :=
      if c == '+' then (1, rest)
      else if c == '-' then (-1, rest)
      else (1, c :: rest)
    if signed.2.isEmpty then .error ()
    else if signed.2.all Char.isDigit then
      .ok (signed.1 * Int.ofNat
        (signed.2.foldl (fun n ch => n * 10 + (ch.toNat - 48)) 0))
    else .error ()

/-- Record an event in front of the rest of a run that also returns a new
table state. -/
def consEv (e : Event) (p : List Event × List ToDo) : List Event × List ToDo :=
  (e :: p.1, p.2)

/-- `CreateToDoInput` after a successful `ShouldBind` (title required,
completed defaulting to false); the bind outcome is passed in, a failed
bind carrying the binding error message. -/
structure CreateToDoInput where
  title : String
  completed : Bool
deriving DecidableEq, Repr

/-- `UpdateTodoInput`: both fields are pointers, `none` when the request
body did not supply them. -/
structure UpdateTodoInput where
  title : Option String
  completed : Option Bool
deriving DecidableEq, Repr

/-- `CreateToDoHandler` (todo_handler.go): context user id, bind, insert,
201 with the created task. -/
def CreateToDoHandler (db : List ToDo) (newId : Int) (now : Nat)
    (userId? : Option String) (bindResult : Except String CreateToDoInput) :
    List Event × List ToDo :=
  match userId? with
  | none => ([.resp ⟨500, .errB "user_id does not exist"⟩], db)
  | some userID =>
    match bindResult with
    | .error msg => ([.resp ⟨400, .errB msg⟩], db)
    | .ok input =>
      let (todo, db2) := CreateTodo db input.title input.completed userID newId now
      ([.store (.insertTodo input.title input.completed userID),
        .resp ⟨201, .todoB todo⟩], db2)

/-- `GetAllTodosHandler` (todo_handler.go): context user id, list query,
200 with the owner scoped list. -/
def GetAllTodosHandler (db : List ToDo) (userId? : Option String) : List Event :=
  match userId? with
  | none => [.resp ⟨500, .errB "user_id does not exist"⟩]
  | some userID =>
    [.store (.selectAllTodos userID), .resp ⟨200, .todosB (GetAllTodos db userID)⟩]

/-- `GetTodoByIDHandler` (todo_handler.go): context user id, `strconv.Atoi`
on the `id` parameter, owner scoped select; `pgx.ErrNoRows` maps to 404,
any other repository error to 500. -/
def GetTodoByIDHandler (db : List ToDo) (userId? : Option String)
    (idString : String) : List Event :=
  match userId? with
  | none => [.resp ⟨500, .errB "user_id does not exist"⟩]
  | some userID =>
    match atoi idString with
    | .error _ => [.resp ⟨400, .errB "Bad Request format"⟩]
    | .ok id =>
      .store (.selectTodo id userID) ::
      match GetTodoByID db id userID with
      | .error .noRows => [.resp ⟨404, .errB "To-Do not found"⟩]
      | .error e => [.resp ⟨500, .errB e.errString⟩]
      | .ok todo => [.resp ⟨200, .todoB todo⟩]

/-- `UpdateTodoHandler` (todo_handler.go): context user id, id parse, bind,
the at-least-one-field guard, read of the existing row, merge of supplied
fields, owner scoped update. -/
def UpdateTodoHandler (db : List ToDo) (now : Nat) (userId? : Option String)
    (idString : String) (bindResult : Except String UpdateTodoInput) :
    List Event × List ToDo :=
  match userId? with
  | none => ([.resp ⟨500, .errB "user_id does not exist"⟩], db)
  | some userID =>
    match atoi idString with
    | .error _ => ([.resp ⟨400, .errB "Invalid todo ID"⟩], db)
    | .ok id =>
      match bindResult with
      | .error msg => ([.resp ⟨400, .errB msg⟩], db)
      | .ok input =>
        if input.title.isNone && input.completed.isNone then
          ([.resp ⟨400, .errB "At least one field is required (title/completed)"⟩], db)
        else
          consEv (.store (.selectTodo id userID))
          (match GetTodoByID db id userID with
          | .error .noRows => ([.resp ⟨404, .errB "ToDo not Found"⟩], db)
          | .error e => ([.resp ⟨500, .errB e.errString⟩], db)
          | .ok existing =>
            let title := match input.title with
              | some t => t
              | none => existing.title
            let completed := match input.completed with
              | some b => b
              | none => existing.completed
            consEv (.store (.updateTodoRow id title completed userID))
            (match UpdateTodo db id title completed userID now with
            | .error e => ([.resp ⟨500, .errB e.errString⟩], db)
            | .ok (todo, db2) => ([.resp ⟨200, .todoB todo⟩], db2)))

/-- `DeleteTodoHandler` (todo_handler.go): context user id, id parse, owner
scoped delete. The not-found comparison rebuilds the repository message
from the *raw* `idString`; on any other error the handler writes 500 and —
that branch having no `return` — falls through and also writes the 200
confirmation. -/
def DeleteTodoHandler (db : List ToDo) (userId? : Option String)
    (idString : String) : List Event × List ToDo :=
  match userId? with
  | none => ([.resp ⟨500, .errB "user_id does not exist"⟩], db)
  | some userID =>
    match atoi idString with
    | .error _ => ([.resp ⟨400, .errB "Invalid todo ID"⟩], db)
    | .ok id =>
      consEv (.store (.deleteTodoRow id userID))
      (match DeleteTodo db id userID with
      | .error e =>
        if e.errString == "ToDo with id: " ++ idString ++ " not found" then
          ([.resp ⟨404, .errB "ToDo not Found"⟩], db)
        else
          ([.resp ⟨500, .errB e.errString⟩,
            .resp ⟨200, .msgB "ToDo successfully deleted"⟩], db)
      | .ok db2 => ([.resp ⟨200, .msgB "ToDo successfully deleted"⟩], db2))

/-- The shape shared by `RegisterRequest` and `LoginRequest`: email and
password, both tagged `binding:"required"`. -/
structure CredRequest where
  email : String
  password : String
deriving DecidableEq, Repr

/-- A request body for the credential endpoints as the JSON layer sees it:
whether it is parseable JSON, and which of the two fields it supplies. -/
structure CredBody where
  wellFormed : Bool
  email : Option String
  password : Option String
deriving DecidableEq, Repr

/-- Modelled from the Gin binding collaborator (`encoding/json` +
`validator` `required` tags): on unparseable JSON the target struct keeps
its zero value and binding fails; on parseable JSON the supplied fields are
unmarshalled into the struct (absent fields stay zero) and binding fails
iff a required field ends up zero — in every failure mode the struct keeps
whatever was unmarshalled. Returns the struct and whether binding failed. -/
def bindJSONCreds (body : CredBody) : CredRequest × Bool :=
  if body.wellFormed then
    let req : CredRequest :=
      { email := body.email.getD "", password := body.password.getD "" }
    (req, req.email == "" || req.password == "")
  else ({ email := "", password := "" }, true)

/-- Modelled from the spec: the `models` package, whose struct tags decide
the JSON serialization of `models.User`, is not among the source files; per
the spec sentence "Persisted user record never serializes the password hash
to any response", the user serializer emits identifier, email and
timestamps and omits the password hash field. -/
def serializeUser (u : User) : List (String × String) :=
  [("id", u.id), ("email", u.email), ("created_at", toString u.createdAt),
   ("updated_at", toString u.updatedAt)]

/-- `CreateUserHandler` (user_handler.go): bind (with `return` on failure),
the six-character password floor, bcrypt hashing (`hash` abstracts
`bcrypt.GenerateFromPassword`, failing on entropy errors), insert; SQLSTATE
23505 maps to 400 "email already registered", other store errors to 500,
success to 201 with the created user record. -/
def CreateUserHandler (hash : String → Except Unit String) (users : List User)
    (newId : String) (now : Nat) (body : CredBody) (bindErrMsg : String) :
    List Event × List User :=
  let bound := bindJSONCreds body
  if bound.2 then ([.resp ⟨400, .errB bindErrMsg⟩], users)
  else
    let registerRequest := bound.1
    if registerRequest.password.length < 6 then
      ([.resp ⟨400, .errB "Password must be at least 6 characters long"⟩], users)
    else
      match hash registerRequest.password with
      | .error _ => ([.resp ⟨500, .errB "Failed to hash password"⟩], users)
      | .ok hashedPassword =>
        let user : User :=
          { id := "", email := registerRequest.email, password := hashedPassword,
            createdAt := 0, updatedAt := 0 }
        (Event.store (.insertUser user.email hashedPassword) ::
          match CreateUser users newId now user with
          | .error pgErr =>
            if pgErr.code == "23505" then
              [.resp ⟨400, .errB "email already registered"⟩]
            else
              [.resp ⟨500, .errB pgErr.message⟩]
          | .ok (createdUser, _) =>
            [.resp ⟨201, .userB (serializeUser createdUser)⟩],
         match CreateUser users newId now user with
         | .error _ => users
         | .ok (_, users2) => users2)

/-- `LoginHandler` (user_handler.go): `c.BindJSON` writes a 400 on failure
but the branch has no `return`, so execution always continues with whatever
credentials were bound; then the email lookup, the bcrypt comparison
(`verify hash candidate` abstracts `bcrypt.CompareHashAndPassword == nil`),
and token signing (`sign` abstracts `SignedString`). -/
def LoginHandler (verify : String → String → Bool)
    (sign : JWTClaims → Except String String) (users : List User) (now : Int)
    (body : CredBody) (bindErrMsg : String) : List Event :=
  let bound := bindJSONCreds body
  let loginRequest := bound.1
  (if bound.2 then [Event.resp ⟨400, .errB bindErrMsg⟩] else []) ++
  (Event.store (.selectUserByEmail loginRequest.email) ::
    match GetUserByEmail users loginRequest.email with
    | .error _ => [.resp ⟨401, .errB "Invalid email or password"⟩]
    | .ok user =>
      if !(verify user.password loginRequest.password) then
        [.resp ⟨401, .errB "Invalid email or password"⟩]
      else
        match sign (loginClaims user.id user.email now) with
        | .error e => [.resp ⟨500, .errB ("Failed to generate token: " ++ e)⟩]
        | .ok tokenString => [.resp ⟨200, .tokenB tokenString⟩])

/-- The router composition of main.go: `protected.Use(AuthMiddleware cfg)`
in front of a /todos handler. A rejection writes the middleware response
and `c.Abort()` stops the chain; `proceed` runs the downstream handler
with the injected user id. -/
def gateThen (now : Int) (decode : String → Option JWTToken)
    (authHeader : String) (handler : String → List Event) : List Event :=
  match AuthMiddleware now decode authHeader with
  | .rejected status msg => [.resp ⟨status, .errB msg⟩]
  | .proceed userID => handler userID

/-! ## Helper lemmas -/

theorem uniqueIds_inj {db : List ToDo} (h : uniqueIds db) :
    ∀ r ∈ db, ∀ s ∈ db, r.id = s.id → r = s := by
  intro r hr s hs hid
  exact List.inj_on_of_nodup_map h hr hs hid

/-- If the row with id `t.id` is owned by `A` and `B ≠ A`, no row of a
unique-id table satisfies `id = t.id AND user_id = B`. -/
theorem no_row_for_other_owner {db : List ToDo} {t : ToDo} {A B : String}
    (huniq : uniqueIds db) (hmem : t ∈ db) (howner : t.userID = A)
    (hAB : B ≠ A) : ∀ r ∈ db, rowMatches t.id B r = false := by
  intro r hr
  cases hb : rowMatches t.id B r
  · rfl
  · exfalso
    simp only [rowMatches, Bool.and_eq_true, beq_iff_eq] at hb
    obtain ⟨hid, huser⟩ := hb
    have hrt : r = t := uniqueIds_inj huniq r hr t hmem hid
    subst hrt
    rw [howner] at huser
    exact hAB huser.symm

/-- `find?` returns the distinguished match when it is the only one. -/
theorem find?_eq_of_only_match {α : Type} {p : α → Bool} {t : α} :
    ∀ {l : List α}, t ∈ l → p t = true → (∀ r ∈ l, p r = true → r = t) →
      l.find? p = some t := by
  intro l
  induction l with
  | nil => intro h; exact absurd h (List.not_mem_nil t)
  | cons a tl ih =>
    intro hmem hp honly
    by_cases ha : p a = true
    · have hat : a = t := honly a (by simp) ha
      subst hat
      simp [List.find?, hp]
    · have hne : a ≠ t := by
        intro h
        exact ha (h ▸ hp)
      have htl : t ∈ tl := by
        rcases List.mem_cons.mp hmem with h | h
        · exact absurd h.symm hne
        · exact h
      have : tl.find? p = some t :=
        ih htl hp (fun r hr hpr => honly r (List.mem_cons_of_mem a hr) hpr)
      simp only [List.find?]
      rw [Bool.not_eq_true] at ha
      rw [ha]
      exact this

/-- In a unique-id table at most one row satisfies
`id = $1 AND user_id = $2`. -/
theorem filter_rowMatches_length_le_one {db : List ToDo} (id : Int)
    (u : String) (huniq : uniqueIds db) :
    (db.filter (rowMatches id u)).length ≤ 1 := by
  have hnd : ((db.filter (rowMatches id u)).map ToDo.id).Nodup :=
    List.Nodup.sublist ((List.filter_sublist db).map ToDo.id) huniq
  have hall : ∀ r ∈ db.filter (rowMatches id u), r.id = id := by
    intro r hr
    have := (List.mem_filter.mp hr).2
    simp only [rowMatches, Bool.and_eq_true, beq_iff_eq] at this
    exact this.1
  match hfl : db.filter (rowMatches id u) with
  | [] => simp
  | [a] => simp
  | a :: b :: rest =>
    exfalso
    rw [hfl] at hnd hall
    have ha : a.id = id := hall a (by simp)
    have hb : b.id = id := hall b (by simp)
    simp only [List.map_cons, List.nodup_cons, List.mem_cons, List.mem_map,
      not_or] at hnd
    exact hnd.1.1 (ha.trans hb.symm)

/-! ## Claim theorems -/

/-- C1: Cross-tenant isolation — for a task in the table owned by `A` and
any owner identifier `B ≠ A`, the owner scoped `GetTodoByID`, `UpdateTodo`
and `DeleteTodo` invoked with `B` and the correct task id all fail with
their not-found outcome (`pgx.ErrNoRows` for the scans, the zero-rows
message for the delete), and `GetAllTodos` invoked with `B` never includes
the task. -/
theorem cross_tenant_isolation (db : List ToDo) (t : ToDo) (A B : String)
    (title : String) (completed : Bool) (now : Nat)
    (hmem : t ∈ db) (howner : t.userID = A) (hAB : B ≠ A)
    (huniq : uniqueIds db) :
    GetTodoByID db t.id B = .error .noRows
    ∧ UpdateTodo db t.id title completed B now = .error .noRows
    ∧ DeleteTodo db t.id B = .error (.message (notFoundMsg t.id))
    ∧ t ∉ GetAllTodos db B := by
  have hno := no_row_for_other_owner huniq hmem howner hAB
  have hfind : db.find? (rowMatches t.id B) = none := by
    rw [List.find?_eq_none]
    intro x hx
    simp [hno x hx]
  have hfilter : db.filter (rowMatches t.id B) = [] := by
    rw [List.filter_eq_nil_iff]
    intro x hx
    simp [hno x hx]
  refine ⟨?_, ?_, ?_, ?_⟩
  · simp [GetTodoByID, hfind]
  · simp [UpdateTodo, hfind]
  · simp [DeleteTodo, hfilter]
  · intro hmem2
    rw [GetAllTodos, List.mem_mergeSort, List.mem_filter] at hmem2
    have : t.userID = B := by
      have := hmem2.2
      simpa using this
    rw [howner] at this
    exact hAB this.symm

/-- Concrete instance of C1: a single-row table owned by "A", queried with
owner "B" and the correct id 1. -/
theorem cross_tenant_isolation_witness :
    GetTodoByID [⟨1, "buy milk", false, 10, 10, "A"⟩] 1 "B" = .error .noRows
    ∧ UpdateTodo [⟨1, "buy milk", false, 10, 10, "A"⟩] 1 "x" true "B" 11
        = .error .noRows
    ∧ DeleteTodo [⟨1, "buy milk", false, 10, 10, "A"⟩] 1 "B"
        = .error (.message (notFoundMsg 1))
    ∧ (⟨1, "buy milk", false, 10, 10, "A"⟩ : ToDo)
        ∉ GetAllTodos [⟨1, "buy milk", false, 10, 10, "A"⟩] "B" := by
  exact cross_tenant_isolation [⟨1, "buy milk", false, 10, 10, "A"⟩]
    ⟨1, "buy milk", false, 10, 10, "A"⟩ "A" "B" "x" true 11
    (by simp) rfl (by decide) (by simp [uniqueIds])

/-- C4: the result of `GetTodoByID` when the task exists under a different
owner is identical — the same `pgx.ErrNoRows` value — to the result when no
task with the requested id exists at all, and `GetTodoByIDHandler` writes
the identical 404 response in both situations. -/
theorem notfound_indistinguishable (db1 db2 : List ToDo) (t : ToDo)
    (tid2 : Int) (A B idS1 idS2 : String)
    (hmem : t ∈ db1) (howner : t.userID = A) (hAB : B ≠ A)
    (huniq : uniqueIds db1)
    (habsent : ∀ r ∈ db2, r.id ≠ tid2)
    (hid1 : atoi idS1 = .ok t.id) (hid2 : atoi idS2 = .ok tid2) :
    GetTodoByID db1 t.id B = GetTodoByID db2 tid2 B
    ∧ GetTodoByID db1 t.id B = .error .noRows
    ∧ responsesOf (GetTodoByIDHandler db1 (some B) idS1)
        = responsesOf (GetTodoByIDHandler db2 (some B) idS2)
    ∧ responsesOf (GetTodoByIDHandler db1 (some B) idS1)
        = [⟨404, .errB "To-Do not found"⟩] := by
  have hno := no_row_for_other_owner huniq hmem howner hAB
  have hfind1 : db1.find? (rowMatches t.id B) = none := by
    rw [List.find?_eq_none]
    intro x hx
    simp [hno x hx]
  have hfind2 : db2.find? (rowMatches tid2 B) = none := by
    rw [List.find?_eq_none]
    intro x hx
    simp only [rowMatches, Bool.and_eq_true, beq_iff_eq, not_and]
    intro hxid
    exact absurd hxid (habsent x hx)
  have hg1 : GetTodoByID db1 t.id B = .error .noRows := by
    simp [GetTodoByID, hfind1]
  have hg2 : GetTodoByID db2 tid2 B = .error .noRows := by
    simp [GetTodoByID, hfind2]
  refine ⟨hg1.trans hg2.symm, hg1, ?_, ?_⟩
  · simp [GetTodoByIDHandler, hid1, hid2, hg1, hg2, responsesOf]
  · simp [GetTodoByIDHandler, hid1, hg1, responsesOf]

/-- Concrete instance of C4: a table holding task 1 owned by "A" queried
with owner "B" for id 1, against an empty table queried for id 2: the
repository results and the handler responses coincide. -/
theorem notfound_indistinguishable_witness :
    GetTodoByID [⟨1, "buy milk", false, 10, 10, "A"⟩] 1 "B"
        = GetTodoByID [] 2 "B"
    ∧ responsesOf (GetTodoByIDHandler [⟨1, "buy milk", false, 10, 10, "A"⟩]
          (some "B") "1")
        = responsesOf (GetTodoByIDHandler [] (some "B") "2") := by
  have h := notfound_indistinguishable [⟨1, "buy milk", false, 10, 10, "A"⟩]
    [] ⟨1, "buy milk", false, 10, 10, "A"⟩ 2 "A" "B" "1" "2"
    (by simp) rfl (by decide) (by simp [uniqueIds]) (by simp) rfl rfl
  exact ⟨h.1, h.2.2.1⟩

/-- C6: `DeleteTodo` succeeds exactly when one row matched the owner scoped
predicate; zero affected rows yield the not-found string error, never
success. -/
theorem delete_confirms_rows_affected (db : List ToDo) (id : Int) (u : String)
    (huniq : uniqueIds db) :
    ((∃ db2, DeleteTodo db id u = .ok db2)
        ↔ (db.filter (rowMatches id u)).length = 1)
    ∧ ((db.filter (rowMatches id u)).length = 0
        → DeleteTodo db id u = .error (.message (notFoundMsg id))) := by
  have hle := filter_rowMatches_length_le_one id u huniq
  constructor
  · constructor
    · rintro ⟨db2, hok⟩
      by_contra hne
      have hzero : (db.filter (rowMatches id u)).length = 0 := by
        omega
      simp [DeleteTodo, hzero] at hok
    · intro hone
      refine ⟨db.filter (fun t => !(rowMatches id u t)), ?_⟩
      simp [DeleteTodo, hone]
  · intro hzero
    simp [DeleteTodo, hzero]

/-- Concrete instance of C6: a one-row table; deleting the present id 1
succeeds (one row affected), deleting the absent id 2 returns the
not-found error. -/
theorem delete_confirms_rows_affected_witness :
    (∃ db2, DeleteTodo [⟨1, "buy milk", false, 10, 10, "A"⟩] 1 "A" = .ok db2)
    ∧ DeleteTodo [⟨1, "buy milk", false, 10, 10, "A"⟩] 2 "A"
        = .error (.message (notFoundMsg 2)) := by
  constructor
  · exact (delete_confirms_rows_affected [⟨1, "buy milk", false, 10, 10, "A"⟩]
      1 "A" (by simp [uniqueIds])).1.mpr (by decide)
  · exact (delete_confirms_rows_affected [⟨1, "buy milk", false, 10, 10, "A"⟩]
      2 "A" (by simp [uniqueIds])).2 (by decide)

/-- C7: an update request that supplies neither `title` nor `completed`
(and passes the earlier context and id-parse steps) produces exactly the
400 invalid-patch response: no storage operation is issued and the table is
returned unchanged. -/
theorem update_no_fields_rejected (db : List ToDo) (now : Nat)
    (uid idString : String) (id : Int) (hid : atoi idString = .ok id) :
    UpdateTodoHandler db now (some uid) idString (.ok ⟨none, none⟩)
      = ([.resp ⟨400,
            .errB "At least one field is required (title/completed)"⟩], db)
    ∧ storeOps (UpdateTodoHandler db now (some uid) idString
        (.ok ⟨none, none⟩)).1 = [] := by
  constructor
  · simp [UpdateTodoHandler, hid]
  · simp [UpdateTodoHandler, hid, storeOps]

/-- Concrete instance of C7: the empty patch against a one-row table. -/
theorem update_no_fields_rejected_witness :
    UpdateTodoHandler [⟨1, "buy milk", false, 10, 10, "A"⟩] 11 (some "A") "1"
        (.ok ⟨none, none⟩)
      = ([.resp ⟨400,
            .errB "At least one field is required (title/completed)"⟩],
         [⟨1, "buy milk", false, 10, 10, "A"⟩]) :=
  (update_no_fields_rejected [⟨1, "buy milk", false, 10, 10, "A"⟩] 11 "A" "1"
    1 rfl).1

theorem applyUpdate_id (id : Int) (title : String) (completed : Bool)
    (userID : String) (now : Nat) (t : ToDo) :
    (applyUpdate id title completed userID now t).id = t.id := by
  unfold applyUpdate
  split <;> rfl

theorem applyUpdate_userID (id : Int) (title : String) (completed : Bool)
    (userID : String) (now : Nat) (t : ToDo) :
    (applyUpdate id title completed userID now t).userID = t.userID := by
  unfold applyUpdate
  split <;> rfl

/-- The owner scoped select finds exactly the row of the owner. -/
theorem GetTodoByID_owner {db : List ToDo} {t : ToDo} {uid : String}
    (hmem : t ∈ db) (hown : t.userID = uid) (huniq : uniqueIds db) :
    GetTodoByID db t.id uid = .ok t := by
  have hpt : rowMatches t.id uid t = true := by
    simp [rowMatches, hown]
  have honly : ∀ r ∈ db, rowMatches t.id uid r = true → r = t := by
    intro r hr hpr
    simp only [rowMatches, Bool.and_eq_true, beq_iff_eq] at hpr
    exact uniqueIds_inj huniq r hr t hmem hpr.1
  have hfind := find?_eq_of_only_match hmem hpt honly
  simp [GetTodoByID, hfind]

/-- The owner scoped update rewrites exactly the row of the owner and the
rewritten row is what a subsequent owner scoped select returns. -/
theorem UpdateTodo_owner {db : List ToDo} {t : ToDo} {uid : String}
    (title : String) (completed : Bool) (now : Nat)
    (hmem : t ∈ db) (hown : t.userID = uid) (huniq : uniqueIds db) :
    UpdateTodo db t.id title completed uid now
      = .ok ({ t with title := title, completed := completed, updatedAt := now },
             db.map (applyUpdate t.id title completed uid now))
    ∧ GetTodoByID (db.map (applyUpdate t.id title completed uid now)) t.id uid
      = .ok { t with title := title, completed := completed, updatedAt := now } := by
  have hpt : rowMatches t.id uid t = true := by
    simp [rowMatches, hown]
  have honly : ∀ r ∈ db, rowMatches t.id uid r = true → r = t := by
    intro r hr hpr
    simp only [rowMatches, Bool.and_eq_true, beq_iff_eq] at hpr
    exact uniqueIds_inj huniq r hr t hmem hpr.1
  have hfind := find?_eq_of_only_match hmem hpt honly
  have hft : applyUpdate t.id title completed uid now t
      = { t with title := title, completed := completed, updatedAt := now } := by
    simp [applyUpdate, hpt]
  constructor
  · simp [UpdateTodo, hfind]
  · have hmem2 : applyUpdate t.id title completed uid now t
        ∈ db.map (applyUpdate t.id title completed uid now) :=
      List.mem_map_of_mem _ hmem
    have hpt2 : rowMatches t.id uid
        (applyUpdate t.id title completed uid now t) = true := by
      rw [hft]
      simp [rowMatches, hown]
    have honly2 : ∀ r ∈ db.map (applyUpdate t.id title completed uid now),
        rowMatches t.id uid r = true
        → r = applyUpdate t.id title completed uid now t := by
      intro r hr hpr
      obtain ⟨r0, hr0, rfl⟩ := List.mem_map.mp hr
      simp only [rowMatches, Bool.and_eq_true, beq_iff_eq] at hpr
      have hid0 : r0.id = t.id := (applyUpdate_id _ _ _ _ _ r0) ▸ hpr.1
      have : r0 = t := uniqueIds_inj huniq r0 hr0 t hmem hid0
      subst this
      rfl
    have hfind2 := find?_eq_of_only_match hmem2 hpt2 honly2
    simp [GetTodoByID, hfind2, hft]

/-- C8: for an existing task of the authenticated owner, an update that
supplies only `completed` leaves the stored title equal to its prior value,
and an update that supplies only `title` leaves the stored completion flag
unchanged (the refreshed `updated_at` aside, fields not supplied keep their
values). -/
theorem update_only_supplied_fields (db : List ToDo) (now : Nat)
    (uid idString : String) (t : ToDo) (s : String) (b : Bool)
    (hid : atoi idString = .ok t.id) (hmem : t ∈ db) (hown : t.userID = uid)
    (huniq : uniqueIds db) :
    GetTodoByID (UpdateTodoHandler db now (some uid) idString
        (.ok ⟨none, some b⟩)).2 t.id uid
      = .ok { t with completed := b, updatedAt := now }
    ∧ GetTodoByID (UpdateTodoHandler db now (some uid) idString
        (.ok ⟨some s, none⟩)).2 t.id uid
      = .ok { t with title := s, updatedAt := now } := by
  have hget := GetTodoByID_owner hmem hown huniq
  constructor
  · have hupd := UpdateTodo_owner t.title b now hmem hown huniq
    simp only [UpdateTodoHandler, hid, hget, consEv, hupd.1]
    exact hupd.2
  · have hupd := UpdateTodo_owner s t.completed now hmem hown huniq
    simp only [UpdateTodoHandler, hid, hget, consEv, hupd.1]
    exact hupd.2

/-- Concrete instance of C8: patching only `completed` on a one-row table
keeps the title "buy milk"; patching only `title` keeps `completed`
false. -/
theorem update_only_supplied_fields_witness :
    GetTodoByID (UpdateTodoHandler [⟨1, "buy milk", false, 10, 10, "A"⟩] 11
        (some "A") "1" (.ok ⟨none, some true⟩)).2 1 "A"
      = .ok ⟨1, "buy milk", true, 10, 11, "A"⟩
    ∧ GetTodoByID (UpdateTodoHandler [⟨1, "buy milk", false, 10, 10, "A"⟩] 11
        (some "A") "1" (.ok ⟨some "walk dog", none⟩)).2 1 "A"
      = .ok ⟨1, "walk dog", false, 10, 11, "A"⟩ :=
  update_only_supplied_fields [⟨1, "buy milk", false, 10, 10, "A"⟩] 11 "A" "1"
    ⟨1, "buy milk", false, 10, 10, "A"⟩ "walk dog" true rfl (by simp) rfl
    (by simp [uniqueIds])

/-- C9: when the repository delete fails with an error whose message
differs from the not-found message the handler rebuilds from the raw id
string, `DeleteTodoHandler` writes the 500 error response and — that branch
having no return — falls through and also writes the 200 success
confirmation to the same request. -/
theorem delete_error_writes_500_then_200 (db : List ToDo)
    (uid idString : String) (id : Int) (e : RepoError)
    (hid : atoi idString = .ok id)
    (hdel : DeleteTodo db id uid = .error e)
    (hmsg : e.errString ≠ "ToDo with id: " ++ idString ++ " not found") :
    (DeleteTodoHandler db (some uid) idString).1
      = [.store (.deleteTodoRow id uid),
         .resp ⟨500, .errB e.errString⟩,
         .resp ⟨200, .msgB "ToDo successfully deleted"⟩] := by
  have hb : (e.errString
      == "ToDo with id: " ++ idString ++ " not found") = false := by
    simp [hmsg]
  simp [DeleteTodoHandler, hid, hdel, consEv, hb]

/-- Concrete instance of C9: the raw id string "007" parses to 7, so the
zero-rows message mentions 7 while the handler compares against "007"; the
run emits the 500 error followed by the 200 success confirmation. -/
theorem delete_error_writes_500_then_200_witness :
    (DeleteTodoHandler [] (some "A") "007").1
      = [.store (.deleteTodoRow 7 "A"),
         .resp ⟨500, .errB "ToDo with id: 7 not found"⟩,
         .resp ⟨200, .msgB "ToDo successfully deleted"⟩] :=
  delete_error_writes_500_then_200 [] "A" "007" 7
    (.message (notFoundMsg 7)) rfl rfl (by decide)

/-- C2 fails on the code: `LoginHandler` stores the expiry claim as a
`time.Time`, which reaches verifiers as an RFC3339 *string*; both the jwt
library check and the explicit middleware check only inspect a `float64`
expiry, so a token issued at instant 0 — encoded expiry instant 86400 —
is still accepted at instant 1000000, long past its expiry, and the
subject is injected. -/
theorem expired_issued_token_accepted :
    (loginClaims "A" "alice@example.com" 0).exp
        = some (.str (rfc3339Render 86400))
    ∧ (86400 : Int) < 1000000
    ∧ AuthMiddleware 1000000
        (fun s => if s == "T"
          then some (issuedTokenDecoded "A" "alice@example.com" 0) else none)
        "Bearer T"
      = .proceed "A" := by
  refine ⟨rfl, by decide, ?_⟩
  rfl

/-- Every run of the middleware either rejects with a 401, or proceeds with
a subject that is the string user_id claim of the successfully verified
token. -/
theorem AuthMiddleware_classified (now : Int)
    (decode : String → Option JWTToken) (h : String) :
    (∃ m, AuthMiddleware now decode h = .rejected 401 m)
    ∨ (∃ tok userID, AuthMiddleware now decode h = .proceed userID
        ∧ jwtParse now (decode (tokenStringOf h)) = .ok tok
        ∧ tok.claims.user_id = some (.str userID)) := by
  unfold AuthMiddleware
  by_cases h0 : (h == "") = true
  · rw [if_pos h0]
    exact Or.inl ⟨"Authorization header required", rfl⟩
  · rw [if_neg h0]
    by_cases h1 : (tokenStringOf h == "" || tokenStringOf h == h) = true
    · rw [if_pos h1]
      exact Or.inl ⟨"Invalid authorization header format", rfl⟩
    · rw [if_neg h1]
      rcases hp : jwtParse now (decode (tokenStringOf h)) with e | tok
      · exact Or.inl ⟨"Invalid or expired token", rfl⟩
      · dsimp only
        rcases huid : tok.claims.user_id with _ | cv
        · exact Or.inl ⟨"Invalid token Claims", rfl⟩
        · cases cv with
          | num n =>
            exact Or.inl ⟨"Invalid token Claims", rfl⟩
          | str s =>
            dsimp only
            rcases hexp : tok.claims.exp with _ | ev
            · exact Or.inr ⟨tok, s, rfl, rfl, huid⟩
            · cases ev with
              | str s2 =>
                exact Or.inr ⟨tok, s, rfl, rfl, huid⟩
              | num e =>
                dsimp only
                by_cases h2 : now > e
                · rw [if_pos h2]
                  exact Or.inl ⟨"Token has expired", rfl⟩
                · rw [if_neg h2]
                  exact Or.inr ⟨tok, s, rfl, rfl, huid⟩

/-- C3: the auth gate state machine — an absent Authorization header, a
header not of the two-part Bearer form, and a token failing verification
each produce the 401 response with the pipeline halted (the composed
output is the middleware response alone, independent of the downstream
handler); every rejection carries status 401; and the downstream handler
runs exactly when the middleware proceeds, its injected subject being the
string user_id claim of the successfully verified token. -/
theorem auth_gate_state_machine (now : Int)
    (decode : String → Option JWTToken) (h : String)
    (handler : String → List Event) :
    (h = "" → gateThen now decode h handler
        = [.resp ⟨401, .errB "Authorization header required"⟩])
    ∧ (h ≠ "" → (tokenStringOf h = "" ∨ tokenStringOf h = h) →
        gateThen now decode h handler
        = [.resp ⟨401, .errB "Invalid authorization header format"⟩])
    ∧ (h ≠ "" → tokenStringOf h ≠ "" → tokenStringOf h ≠ h →
        jwtParse now (decode (tokenStringOf h)) = .error () →
        gateThen now decode h handler
        = [.resp ⟨401, .errB "Invalid or expired token"⟩])
    ∧ (∀ status msg, AuthMiddleware now decode h = .rejected status msg →
        status = 401
        ∧ gateThen now decode h handler = [.resp ⟨401, .errB msg⟩])
    ∧ (∀ userID, AuthMiddleware now decode h = .proceed userID →
        gateThen now decode h handler = handler userID
        ∧ ∃ tok, jwtParse now (decode (tokenStringOf h)) = .ok tok
            ∧ tok.claims.user_id = some (.str userID)) := by
  refine ⟨?_, ?_, ?_, ?_, ?_⟩
  · intro he
    subst he
    rfl
  · intro hne hts
    rcases hts with h1 | h1 <;> simp [gateThen, AuthMiddleware, hne, h1]
  · intro hne h1 h2 hp
    simp [gateThen, AuthMiddleware, hne, h1, h2, hp]
  · intro status msg hrej
    rcases AuthMiddleware_classified now decode h with ⟨m0, heq⟩
      | ⟨tok, uid, heq, _, _⟩
    · rw [heq] at hrej
      cases hrej
      exact ⟨rfl, by simp [gateThen, heq]⟩
    · rw [heq] at hrej
      cases hrej
  · intro userID hpr
    rcases AuthMiddleware_classified now decode h with ⟨m0, heq⟩
      | ⟨tok, uid, heq, hp, huid⟩
    · rw [heq] at hpr
      cases hpr
    · rw [heq] at hpr
      cases hpr
      exact ⟨by simp [gateThen, heq], tok, hp, huid⟩

/-- Concrete instance of C3: with no Authorization header the composed
pipeline emits only the middleware 401, whatever the downstream handler
would do. -/
theorem auth_gate_state_machine_witness :
    gateThen 0 (fun _ => none) ""
        (fun userID => [.store (.selectAllTodos userID)])
      = [.resp ⟨401, .errB "Authorization header required"⟩] :=
  (auth_gate_state_machine 0 (fun _ => none) ""
    (fun userID => [.store (.selectAllTodos userID)])).1 rfl

/-- C10 as stated fails on the code: with the parseable body that supplies
email "x@y.z" but no password, binding fails and the handler writes the 400
response and continues — but with the bound email "x@y.z", not with
zero-valued credentials: no credential-store lookup with the empty email
occurs during the run. -/
theorem login_bind_failure_keeps_bound_email :
    LoginHandler (fun _ _ => false) (fun _ => .error "e") [] 0
        ⟨true, some "x@y.z", none⟩ "binding error"
      = [.resp ⟨400, .errB "binding error"⟩,
         .store (.selectUserByEmail "x@y.z"),
         .resp ⟨401, .errB "Invalid email or password"⟩]
    ∧ Event.store (.selectUserByEmail "")
        ∉ LoginHandler (fun _ _ => false) (fun _ => .error "e") [] 0
            ⟨true, some "x@y.z", none⟩ "binding error" := by
  constructor
  · rfl
  · decide

/-- C10 amended: when binding the login body fails, the handler writes the
400 response but does not return; it continues with the credentials the
bind left in the struct — the fields the body supplied, unsupplied fields
staying zero-valued, the whole struct staying zero-valued for an
unparseable body — performs the credential-store lookup with that email,
and — whenever the continued authentication fails — writes an additional
401 response to the same request. -/
theorem login_bind_failure_continues (verify : String → String → Bool)
    (sign : JWTClaims → Except String String) (users : List User) (now : Int)
    (body : CredBody) (bindErrMsg : String)
    (hbind : (bindJSONCreds body).2 = true)
    (hauth : ∀ u ∈ users, u.email = (bindJSONCreds body).1.email →
        verify u.password (bindJSONCreds body).1.password = false) :
    LoginHandler verify sign users now body bindErrMsg
      = [.resp ⟨400, .errB bindErrMsg⟩,
         .store (.selectUserByEmail (bindJSONCreds body).1.email),
         .resp ⟨401, .errB "Invalid email or password"⟩]
    ∧ (body.wellFormed = false → (bindJSONCreds body).1 = ⟨"", ""⟩)
    ∧ (body.wellFormed = true → (bindJSONCreds body).1
        = ⟨body.email.getD "", body.password.getD ""⟩) := by
  refine ⟨?_, ?_, ?_⟩
  · rcases hlook : GetUserByEmail users (bindJSONCreds body).1.email
      with e | u
    · simp [LoginHandler, hbind, hlook]
    · have hfind : users.find? (fun v => v.email == (bindJSONCreds body).1.email)
          = some u := by
        unfold GetUserByEmail at hlook
        rcases hf : users.find? (fun v => v.email == (bindJSONCreds body).1.email)
          with _ | v
        · rw [hf] at hlook
          cases hlook
        · rw [hf] at hlook
          cases hlook
          exact hf
      have hu : u ∈ users := List.mem_of_find?_eq_some hfind
      have hue : u.email = (bindJSONCreds body).1.email := by
        have := List.find?_some hfind
        simpa using this
      have hv : verify u.password (bindJSONCreds body).1.password = false :=
        hauth u hu hue
      simp [LoginHandler, hbind, hlook, hv]
  · intro hw
    simp [bindJSONCreds, hw]
  · intro hw
    simp [bindJSONCreds, hw]

/-- Concrete instance of the amended C10: an unparseable body against an
empty credential store produces the 400 response followed by the lookup
with the zero-valued email and the 401 response. -/
theorem login_bind_failure_continues_witness :
    LoginHandler (fun _ _ => false) (fun _ => .error "e") [] 0
        ⟨false, none, none⟩ "invalid JSON"
      = [.resp ⟨400, .errB "invalid JSON"⟩,
         .store (.selectUserByEmail ""),
         .resp ⟨401, .errB "Invalid email or password"⟩] :=
  (login_bind_failure_continues (fun _ _ => false) (fun _ => .error "e") [] 0
    ⟨false, none, none⟩ "invalid JSON" rfl
    (by
      intro u hu
      exact absurd hu (List.not_mem_nil u))).1

theorem safeBody_errB (m : String) : "password" ∉ (Body.errB m).jsonKeys := by
  simp only [Body.jsonKeys]
  decide

theorem safeBody_msgB (m : String) : "password" ∉ (Body.msgB m).jsonKeys := by
  simp only [Body.jsonKeys]
  decide

theorem safeBody_tokenB (s : String) :
    "password" ∉ (Body.tokenB s).jsonKeys := by
  simp only [Body.jsonKeys]
  decide

theorem safeBody_userB (u : User) :
    "password" ∉ (Body.userB (serializeUser u)).jsonKeys := by
  simp only [Body.jsonKeys, serializeUser, List.map]
  decide

theorem safeBody_todoB (t : ToDo) : "password" ∉ (Body.todoB t).jsonKeys := by
  simp only [Body.jsonKeys, todoJSONKeys]
  decide

theorem safeBody_todosB (ts : List ToDo) :
    "password" ∉ (Body.todosB ts).jsonKeys := by
  simp only [Body.jsonKeys, todoJSONKeys]
  decide

theorem createUserHandler_no_password (hash : String → Except Unit String)
    (users : List User) (newId : String) (now : Nat) (body : CredBody)
    (bindErrMsg : String) :
    ∀ b ∈ respBodies (CreateUserHandler hash users newId now body bindErrMsg).1,
      "password" ∉ b.jsonKeys := by
  intro b hb
  unfold CreateUserHandler at hb
  try dsimp only at hb
  repeat' split at hb
  all_goals simp [respBodies] at hb
  all_goals try subst hb
  all_goals try (rcases hb with hb | hb <;> subst hb)
  all_goals first
    | exact safeBody_errB _
    | exact safeBody_msgB _
    | exact safeBody_tokenB _
    | exact safeBody_userB _
    | exact safeBody_todoB _
    | exact safeBody_todosB _

theorem loginHandler_no_password (verify : String → String → Bool)
    (sign : JWTClaims → Except String String) (users : List User) (now : Int)
    (body : CredBody) (bindErrMsg : String) :
    ∀ b ∈ respBodies (LoginHandler verify sign users now body bindErrMsg),
      "password" ∉ b.jsonKeys := by
  intro b hb
  unfold LoginHandler at hb
  try dsimp only at hb
  repeat' split at hb
  all_goals simp [respBodies] at hb
  all_goals try subst hb
  all_goals try (rcases hb with hb | hb <;> subst hb)
  all_goals first
    | exact safeBody_errB _
    | exact safeBody_msgB _
    | exact safeBody_tokenB _
    | exact safeBody_userB _
    | exact safeBody_todoB _
    | exact safeBody_todosB _

theorem createToDoHandler_no_password (db : List ToDo) (newId : Int)
    (now : Nat) (userId? : Option String)
    (bindResult : Except String CreateToDoInput) :
    ∀ b ∈ respBodies (CreateToDoHandler db newId now userId? bindResult).1,
      "password" ∉ b.jsonKeys := by
  intro b hb
  unfold CreateToDoHandler at hb
  try dsimp only at hb
  repeat' split at hb
  all_goals simp [respBodies, CreateTodo] at hb
  all_goals try subst hb
  all_goals try (rcases hb with hb | hb <;> subst hb)
  all_goals first
    | exact safeBody_errB _
    | exact safeBody_msgB _
    | exact safeBody_tokenB _
    | exact safeBody_userB _
    | exact safeBody_todoB _
    | exact safeBody_todosB _

theorem getAllTodosHandler_no_password (db : List ToDo)
    (userId? : Option String) :
    ∀ b ∈ respBodies (GetAllTodosHandler db userId?),
      "password" ∉ b.jsonKeys := by
  intro b hb
  unfold GetAllTodosHandler at hb
  try dsimp only at hb
  repeat' split at hb
  all_goals simp [respBodies] at hb
  all_goals try subst hb
  all_goals try (rcases hb with hb | hb <;> subst hb)
  all_goals first
    | exact safeBody_errB _
    | exact safeBody_msgB _
    | exact safeBody_tokenB _
    | exact safeBody_userB _
    | exact safeBody_todoB _
    | exact safeBody_todosB _

theorem getTodoByIDHandler_no_password (db : List ToDo)
    (userId? : Option String) (idString : String) :
    ∀ b ∈ respBodies (GetTodoByIDHandler db userId? idString),
      "password" ∉ b.jsonKeys := by
  intro b hb
  unfold GetTodoByIDHandler at hb
  try dsimp only at hb
  repeat' split at hb
  all_goals simp [respBodies] at hb
  all_goals try subst hb
  all_goals try (rcases hb with hb | hb <;> subst hb)
  all_goals first
    | exact safeBody_errB _
    | exact safeBody_msgB _
    | exact safeBody_tokenB _
    | exact safeBody_userB _
    | exact safeBody_todoB _
    | exact safeBody_todosB _

theorem updateTodoHandler_no_password (db : List ToDo) (now : Nat)
    (userId? : Option String) (idString : String)
    (bindResult : Except String UpdateTodoInput) :
    ∀ b ∈ respBodies (UpdateTodoHandler db now userId? idString bindResult).1,
      "password" ∉ b.jsonKeys := by
  intro b hb
  unfold UpdateTodoHandler at hb
  dsimp only [consEv] at hb
  repeat' split at hb
  all_goals simp [respBodies, consEv] at hb
  all_goals try subst hb
  all_goals try (rcases hb with hb | hb <;> subst hb)
  all_goals first
    | exact safeBody_errB _
    | exact safeBody_msgB _
    | exact safeBody_tokenB _
    | exact safeBody_userB _
    | exact safeBody_todoB _
    | exact safeBody_todosB _

theorem deleteTodoHandler_no_password (db : List ToDo)
    (userId? : Option String) (idString : String) :
    ∀ b ∈ respBodies (DeleteTodoHandler db userId? idString).1,
      "password" ∉ b.jsonKeys := by
  intro b hb
  unfold DeleteTodoHandler at hb
  dsimp only [consEv] at hb
  repeat' split at hb
  all_goals simp [respBodies, consEv] at hb
  all_goals try subst hb
  all_goals try (rcases hb with hb | hb <;> subst hb)
  all_goals first
    | exact safeBody_errB _
    | exact safeBody_msgB _
    | exact safeBody_tokenB _
    | exact safeBody_userB _
    | exact safeBody_todoB _
    | exact safeBody_todosB _

/-- C5: no response of any endpoint — the 201 registration body built from
the created user record included — serializes the stored password hash
field: the key "password" appears in no response body of any handler, for
any input. -/
theorem password_never_serialized (hash : String → Except Unit String)
    (verify : String → String → Bool)
    (sign : JWTClaims → Except String String) (users : List User)
    (newId : String) (nowU : Nat) (body : CredBody) (bindErrMsg : String)
    (nowL : Int) (db : List ToDo) (newTid : Int) (nowT : Nat)
    (userId? : Option String) (idString : String)
    (bindC : Except String CreateToDoInput)
    (bindU : Except String UpdateTodoInput) :
    (∀ b ∈ respBodies (CreateUserHandler hash users newId nowU body bindErrMsg).1,
        "password" ∉ b.jsonKeys)
    ∧ (∀ b ∈ respBodies (LoginHandler verify sign users nowL body bindErrMsg),
        "password" ∉ b.jsonKeys)
    ∧ (∀ b ∈ respBodies (CreateToDoHandler db newTid nowT userId? bindC).1,
        "password" ∉ b.jsonKeys)
    ∧ (∀ b ∈ respBodies (GetAllTodosHandler db userId?),
        "password" ∉ b.jsonKeys)
    ∧ (∀ b ∈ respBodies (GetTodoByIDHandler db userId? idString),
        "password" ∉ b.jsonKeys)
    ∧ (∀ b ∈ respBodies (UpdateTodoHandler db nowT userId? idString bindU).1,
        "password" ∉ b.jsonKeys)
    ∧ (∀ b ∈ respBodies (DeleteTodoHandler db userId? idString).1,
        "password" ∉ b.jsonKeys) :=
  ⟨createUserHandler_no_password hash users newId nowU body bindErrMsg,
   loginHandler_no_password verify sign users nowL body bindErrMsg,
   createToDoHandler_no_password db newTid nowT userId? bindC,
   getAllTodosHandler_no_password db userId?,
   getTodoByIDHandler_no_password db userId? idString,
   updateTodoHandler_no_password db nowT userId? idString bindU,
   deleteTodoHandler_no_password db userId? idString⟩

/-- Concrete instance of C5: the 201 registration response for a fresh
registration carries a serialized user body without the password key. -/
theorem password_never_serialized_witness :
    respBodies (CreateUserHandler (fun p => .ok ("hash of " ++ p)) [] "7" 3
        ⟨true, some "alice@example.com", some "secret1"⟩ "m").1
      = [Body.userB [("id", "7"), ("email", "alice@example.com"),
          ("created_at", "3"), ("updated_at", "3")]]
    ∧ "password" ∉ (Body.userB [("id", "7"), ("email", "alice@example.com"),
          ("created_at", "3"), ("updated_at", "3")]).jsonKeys := by
  constructor
  · rfl
  · exact (password_never_serialized (fun p => .ok ("hash of " ++ p))
      (fun _ _ => false) (fun _ => .error "e") [] "7" 3
      ⟨true, some "alice@example.com", some "secret1"⟩ "m" 0 [] 1 1 none "1"
      (.error "b") (.error "b")).1
      (Body.userB [("id", "7"), ("email", "alice@example.com"),
        ("created_at", "3"), ("updated_at", "3")])
      (by decide)

end TodosApi
